import Mathlib

/-!
Verification of the SolidStrategy trading-decision engine.

The embedding models the strategy class of `SolidStrategy.py`:
a dataframe is a list of rows (bars), each carrying the price/volume
columns and the indicator columns attached by `populate_indicators`;
the hyperoptable parameters are gathered in a `Params` record; numeric
values are rationals.  Signal columns (`enter_long`, `exit_long`) are
`Option` valued: `none` models an unset (NaN / missing) cell.
-/

/-- One dataframe row (bar): OHLCV columns plus the indicator columns
computed by `populate_indicators`, and the two signal columns. -/
structure Row where
  open_price : ℚ
  high : ℚ
  low : ℚ
  close : ℚ
  volume : ℚ
  rsi : ℚ
  ema_short : ℚ
  ema_long : ℚ
  macd : ℚ
  macdsignal : ℚ
  macdhist : ℚ
  atr : ℚ
  enter_long : Option ℚ
  exit_long : Option ℚ
  deriving Repr, DecidableEq

/-- The hyperoptable parameters of `SolidStrategy` (current values).
`trailing_stop` is `Option` valued to model the defensive `is not None`
check in `trailing_sell`.  Durations are rationals measured in minutes. -/
structure Params where
  buy_rsi : ℚ
  sell_rsi : ℚ
  buy_ema_short : ℕ
  buy_ema_long : ℕ
  sell_ema_short : ℕ
  sell_ema_long : ℕ
  max_epa : ℕ
  use_stop_protection : Bool
  trailing_stop : Option ℚ
  max_trade_duration : ℚ
  deriving Repr, DecidableEq

/-- The default parameter values declared in the class body. -/
def defaultParams : Params :=
  { buy_rsi := 30
    sell_rsi := 70
    buy_ema_short := 10
    buy_ema_long := 30
    sell_ema_short := 10
    sell_ema_long := 30
    max_epa := 1
    use_stop_protection := true
    trailing_stop := some (5 / 100)
    max_trade_duration := 120 }

/-- `populate_entry_trend`: sets `enter_long := 1` exactly on the rows
where all three accumulated conditions hold (`rsi < buy_rsi`,
`ema_short > ema_long`, `volume > 0`); every other row is left as is. -/
def populate_entry_trend (p : Params) (df : List Row) : List Row :=
  df.map fun r =>
    if r.rsi < p.buy_rsi ∧ r.ema_short > r.ema_long ∧ r.volume > 0 then
      { r with enter_long := some 1 }
    else r

/-- `populate_exit_trend`: sets `exit_long := 1` exactly on the rows
where all three accumulated conditions hold (`rsi > sell_rsi`,
`ema_short < ema_long`, `volume > 0`); every other row is left as is. -/
def populate_exit_trend (p : Params) (df : List Row) : List Row :=
  df.map fun r =>
    if r.rsi > p.sell_rsi ∧ r.ema_short < r.ema_long ∧ r.volume > 0 then
      { r with exit_long := some 1 }
    else r

/-- A sample bar matching end-to-end scenario 1 of the spec. -/
def row1 : Row :=
  { open_price := 100, high := 101, low := 99, close := 100, volume := 500
    rsi := 25, ema_short := 110, ema_long := 100
    macd := 0, macdsignal := 0, macdhist := 0, atr := 1
    enter_long := none, exit_long := none }

/-- C1: for every bar whose entry signal starts unset, `populate_entry_trend`
sets the entry signal iff the conjunction of the three entry predicates
holds (`rsi < buy_rsi`, `ema_short > ema_long`, `volume > 0`); if any
predicate fails the signal stays unset. -/
theorem entry_signal_iff (p : Params) (df : List Row) (i : ℕ) (r : Row)
    (h : df[i]? = some r) (h0 : r.enter_long = none) :
    ∃ s, (populate_entry_trend p df)[i]? = some s ∧
      s.enter_long =
        (if r.rsi < p.buy_rsi ∧ r.ema_short > r.ema_long ∧ r.volume > 0 then
          some 1 else none) := by
  refine ⟨if r.rsi < p.buy_rsi ∧ r.ema_short > r.ema_long ∧ r.volume > 0 then
      { r with enter_long := some 1 } else r, ?_, ?_⟩
  · simp [populate_entry_trend, List.getElem?_map, h]
  · by_cases hc : r.rsi < p.buy_rsi ∧ r.ema_short > r.ema_long ∧ r.volume > 0
    · simp [hc]
    · simp [hc, h0]

/-- Witness for C1: scenario 1 of the spec (rsi 25 below threshold 30,
fast average 110 above slow average 100, volume 500) sets the entry
signal. -/
theorem entry_signal_iff_witness :
    ∃ s, (populate_entry_trend defaultParams [row1])[0]? = some s ∧
      s.enter_long =
        (if row1.rsi < defaultParams.buy_rsi ∧
            row1.ema_short > row1.ema_long ∧ row1.volume > 0 then
          some 1 else none) :=
  entry_signal_iff defaultParams [row1] 0 row1 rfl rfl

/-- Scenario 2 of the spec: the same bar as `row1` but with zero volume. -/
def row2 : Row := { row1 with volume := 0 }

/-- C3: on a zero-volume bar whose signal cells start unset, neither
`populate_entry_trend` nor `populate_exit_trend` sets a signal, whatever
the oscillator and trend-average values on that bar are. -/
theorem volume_zero_no_signal (p : Params) (df : List Row) (i : ℕ) (r : Row)
    (h : df[i]? = some r) (hv : r.volume = 0)
    (he : r.enter_long = none) (hx : r.exit_long = none) :
    (∃ s, (populate_entry_trend p df)[i]? = some s ∧ s.enter_long = none) ∧
    (∃ s, (populate_exit_trend p df)[i]? = some s ∧ s.exit_long = none) := by
  constructor
  · refine ⟨r, ?_, he⟩
    have : ¬ (r.rsi < p.buy_rsi ∧ r.ema_short > r.ema_long ∧ r.volume > 0) := by
      rintro ⟨-, -, hvol⟩
      rw [hv] at hvol
      exact lt_irrefl 0 hvol
    simp [populate_entry_trend, List.getElem?_map, h, this]
  · refine ⟨r, ?_, hx⟩
    have : ¬ (r.rsi > p.sell_rsi ∧ r.ema_short < r.ema_long ∧ r.volume > 0) := by
      rintro ⟨-, -, hvol⟩
      rw [hv] at hvol
      exact lt_irrefl 0 hvol
    simp [populate_exit_trend, List.getElem?_map, h, this]

/-- Witness for C3: scenario 2 of the spec (all entry predicates of
`row1` hold except volume, which is zero) produces no signal. -/
theorem volume_zero_no_signal_witness :
    (∃ s, (populate_entry_trend defaultParams [row2])[0]? = some s ∧
      s.enter_long = none) ∧
    (∃ s, (populate_exit_trend defaultParams [row2])[0]? = some s ∧
      s.exit_long = none) :=
  volume_zero_no_signal defaultParams [row2] 0 row2 rfl rfl rfl rfl

/-- C10: `populate_entry_trend` and `populate_exit_trend` each touch only
their own signal column: every other field of every row (prices, volume,
indicators, and the other signal column) is returned unchanged. -/
theorem signal_population_frame (p : Params) (df : List Row) (i : ℕ) (r : Row)
    (h : df[i]? = some r) :
    (∃ s, (populate_entry_trend p df)[i]? = some s ∧
      s.open_price = r.open_price ∧ s.high = r.high ∧ s.low = r.low ∧
      s.close = r.close ∧ s.volume = r.volume ∧ s.rsi = r.rsi ∧
      s.ema_short = r.ema_short ∧ s.ema_long = r.ema_long ∧
      s.macd = r.macd ∧ s.macdsignal = r.macdsignal ∧
      s.macdhist = r.macdhist ∧ s.atr = r.atr ∧
      s.exit_long = r.exit_long) ∧
    (∃ s, (populate_exit_trend p df)[i]? = some s ∧
      s.open_price = r.open_price ∧ s.high = r.high ∧ s.low = r.low ∧
      s.close = r.close ∧ s.volume = r.volume ∧ s.rsi = r.rsi ∧
      s.ema_short = r.ema_short ∧ s.ema_long = r.ema_long ∧
      s.macd = r.macd ∧ s.macdsignal = r.macdsignal ∧
      s.macdhist = r.macdhist ∧ s.atr = r.atr ∧
      s.enter_long = r.enter_long) := by
  constructor
  · refine ⟨if r.rsi < p.buy_rsi ∧ r.ema_short > r.ema_long ∧ r.volume > 0 then
      { r with enter_long := some 1 } else r, ?_, ?_⟩
    · simp [populate_entry_trend, List.getElem?_map, h]
    · by_cases hc : r.rsi < p.buy_rsi ∧ r.ema_short > r.ema_long ∧ r.volume > 0 <;>
        simp [hc]
  · refine ⟨if r.rsi > p.sell_rsi ∧ r.ema_short < r.ema_long ∧ r.volume > 0 then
      { r with exit_long := some 1 } else r, ?_, ?_⟩
    · simp [populate_exit_trend, List.getElem?_map, h]
    · by_cases hc : r.rsi > p.sell_rsi ∧ r.ema_short < r.ema_long ∧ r.volume > 0 <;>
        simp [hc]

/-- Witness for C10: applied to the concrete bar `row1`. -/
theorem signal_population_frame_witness :
    (∃ s, (populate_entry_trend defaultParams [row1])[0]? = some s ∧
      s.open_price = row1.open_price ∧ s.high = row1.high ∧ s.low = row1.low ∧
      s.close = row1.close ∧ s.volume = row1.volume ∧ s.rsi = row1.rsi ∧
      s.ema_short = row1.ema_short ∧ s.ema_long = row1.ema_long ∧
      s.macd = row1.macd ∧ s.macdsignal = row1.macdsignal ∧
      s.macdhist = row1.macdhist ∧ s.atr = row1.atr ∧
      s.exit_long = row1.exit_long) ∧
    (∃ s, (populate_exit_trend defaultParams [row1])[0]? = some s ∧
      s.open_price = row1.open_price ∧ s.high = row1.high ∧ s.low = row1.low ∧
      s.close = row1.close ∧ s.volume = row1.volume ∧ s.rsi = row1.rsi ∧
      s.ema_short = row1.ema_short ∧ s.ema_long = row1.ema_long ∧
      s.macd = row1.macd ∧ s.macdsignal = row1.macdsignal ∧
      s.macdhist = row1.macdhist ∧ s.atr = row1.atr ∧
      s.enter_long = row1.enter_long) :=
  signal_population_frame defaultParams [row1] 0 row1 rfl

/-- A position snapshot as read by the core (`freqtrade.persistence.Trade`):
only the fields the strategy touches.  `open_rate` is `Option` valued to
model the defensive `is not None` check; `open_date_utc` is a timestamp
measured in minutes on an arbitrary origin. -/
structure Trade where
  open_rate : Option ℚ
  open_date_utc : ℚ
  deriving Repr, DecidableEq

/-- The trailing-stop price computed inline in `trailing_sell`:
`open_rate * (1 - trailing_fraction)`. -/
def stoploss_price (open_rate trailing_fraction : ℚ) : ℚ :=
  open_rate * (1 - trailing_fraction)

/-- `trailing_sell`: when both the open rate and the trailing-stop
fraction are defined, returns the stop price whenever the current rate
has fallen to or below it, and `none` otherwise; when either input is
undefined it returns `none`. -/
def trailing_sell (p : Params) (t : Trade) (current_rate : ℚ) : Option ℚ :=
  match t.open_rate, p.trailing_stop with
  | some o, some f =>
      if current_rate ≤ stoploss_price o f then some (stoploss_price o f)
      else none
  | _, _ => none

/-- `check_time_based_exit`: true iff the elapsed time since the trade
opened strictly exceeds the configured maximum duration (minutes). -/
def check_time_based_exit (p : Params) (t : Trade) (current_time : ℚ) : Bool :=
  current_time - t.open_date_utc > p.max_trade_duration

/-- `custom_sell`: the time-based exit is checked first and returns the
current rate; otherwise profit above the hardcoded 0.05 threshold
returns the current rate; otherwise no signal. -/
def custom_sell (p : Params) (t : Trade)
    (current_time current_rate current_profit : ℚ) : Option ℚ :=
  if check_time_based_exit p t current_time then some current_rate
  else if current_profit > 5 / 100 then some current_rate
  else none

/-- `dynamic_roi`: piecewise ROI floor by trade age in minutes.  In the
source the age is `(utcnow - open_date_utc)` in minutes; it is taken
here as the `trade_duration` argument. -/
def dynamic_roi (trade_duration current_profit : ℚ) : ℚ :=
  if trade_duration < 60 then max (2 / 100) current_profit
  else if trade_duration < 120 then max (5 / 100) current_profit
  else max (1 / 10) current_profit

/-- A guard spec of the Protection Policy (`method` plus its numeric
parameters), as a data record. -/
inductive Guard where
  | cooldownPeriod (stop_duration_candles : ℕ)
  | stoplossGuard (lookback_period_candles trade_limit stop_duration_candles : ℕ)
      (only_per_pair : Bool)
  deriving Repr, DecidableEq

/-- The `protections` property: always a cooldown of `2 * 24` candles;
a stoploss guard (lookback `24 * 3`, limit 3, pause 24, per pair) is
appended exactly when `use_stop_protection` is set. -/
def protections (p : Params) : List Guard :=
  let prot : List Guard := [Guard.cooldownPeriod (2 * 24)]
  if p.use_stop_protection then
    prot ++ [Guard.stoplossGuard (24 * 3) 3 24 true]
  else prot

/-- A concrete open position: open rate 100, opened at time 0. -/
def trade1 : Trade := { open_rate := some 100, open_date_utc := 0 }

/-- C4: `dynamic_roi` returns `max 0.02 profit` for age below 60 minutes,
`max 0.05 profit` for age in `[60, 120)`, and `max 0.10 profit` for age
at least 120; in particular age 150 with profit 0.03 yields 0.10. -/
theorem dynamic_roi_bands :
    (∀ d pr : ℚ,
      (d < 60 → dynamic_roi d pr = max (2 / 100) pr) ∧
      (60 ≤ d → d < 120 → dynamic_roi d pr = max (5 / 100) pr) ∧
      (120 ≤ d → dynamic_roi d pr = max (1 / 10) pr)) ∧
    dynamic_roi 150 (3 / 100) = 1 / 10 := by
  constructor
  · intro d pr
    refine ⟨fun h1 => ?_, fun h1 h2 => ?_, fun h1 => ?_⟩
    · simp [dynamic_roi, h1]
    · simp [dynamic_roi, not_lt.mpr h1, h2]
    · have h2 : ¬ d < 60 := not_lt.mpr (by linarith)
      have h3 : ¬ d < 120 := not_lt.mpr h1
      simp [dynamic_roi, h2, h3]
  · norm_num [dynamic_roi]

/-- Witness for C4: one value in each age band. -/
theorem dynamic_roi_bands_witness :
    dynamic_roi 30 (1 / 100) = 2 / 100 ∧
    dynamic_roi 90 0 = 5 / 100 ∧
    dynamic_roi 150 (3 / 100) = 1 / 10 :=
  ⟨((dynamic_roi_bands.1 30 (1 / 100)).1 (by norm_num)).trans (by norm_num),
   ((dynamic_roi_bands.1 90 0).2.1 (by norm_num) (by norm_num)).trans (by norm_num),
   dynamic_roi_bands.2⟩

/-- C5: `trailing_sell` returns the stop price `open_rate * (1 - fraction)`
exactly when the current rate is at or below it, `none` above it, and
`none` whenever the open rate or the trailing fraction is undefined. -/
theorem trailing_sell_cases (p : Params) (t : Trade) (r : ℚ) :
    (∀ o f, t.open_rate = some o → p.trailing_stop = some f →
      trailing_sell p t r =
        if r ≤ stoploss_price o f then some (stoploss_price o f) else none) ∧
    (t.open_rate = none → trailing_sell p t r = none) ∧
    (p.trailing_stop = none → trailing_sell p t r = none) := by
  refine ⟨fun o f ho hf => ?_, fun ho => ?_, fun hf => ?_⟩
  · simp [trailing_sell, ho, hf]
  · simp [trailing_sell, ho]
  · cases ho : t.open_rate <;> simp [trailing_sell, ho, hf]

/-- Witness for C5: scenario 3 of the spec (open rate 100, fraction 0.05,
current rate 94) signals an exit at the stop price 95. -/
theorem trailing_sell_cases_witness :
    trailing_sell defaultParams trade1 94 = some 95 := by
  have h := (trailing_sell_cases defaultParams trade1 94).1 100 (5 / 100) rfl rfl
  rw [h]
  norm_num [stoploss_price]

/-- C6: the time-based exit fires iff the elapsed duration strictly
exceeds the configured maximum; at exact equality it does not fire. -/
theorem time_based_exit_iff (p : Params) (t : Trade) (now : ℚ) :
    (check_time_based_exit p t now = true ↔
      now - t.open_date_utc > p.max_trade_duration) ∧
    (now - t.open_date_utc = p.max_trade_duration →
      check_time_based_exit p t now = false) := by
  constructor
  · simp [check_time_based_exit]
  · intro h
    simp [check_time_based_exit, h]

/-- Witness for C6: with the default maximum of 120 minutes, a position
opened 125 minutes ago exits (scenario 5) and one opened exactly 120
minutes ago does not. -/
theorem time_based_exit_iff_witness :
    check_time_based_exit defaultParams trade1 125 = true ∧
    check_time_based_exit defaultParams trade1 120 = false :=
  ⟨(time_based_exit_iff defaultParams trade1 125).1.mpr (by norm_num [trade1, defaultParams]),
   (time_based_exit_iff defaultParams trade1 120).2 (by norm_num [trade1, defaultParams])⟩

/-- C7: `custom_sell` checks the time-based exit first: past the maximum
duration it returns the current rate regardless of profit; otherwise
profit strictly above 0.05 returns the current rate; otherwise `none`. -/
theorem custom_sell_order (p : Params) (t : Trade) (now rate profit : ℚ) :
    (check_time_based_exit p t now = true →
      custom_sell p t now rate profit = some rate) ∧
    (check_time_based_exit p t now = false → profit > 5 / 100 →
      custom_sell p t now rate profit = some rate) ∧
    (check_time_based_exit p t now = false → ¬ profit > 5 / 100 →
      custom_sell p t now rate profit = none) := by
  refine ⟨fun h => ?_, fun h hp => ?_, fun h hp => ?_⟩
  · simp [custom_sell, h]
  · simp [custom_sell, h, hp]
  · simp [custom_sell, h, hp]

/-- Witness for C7: a position past its 120-minute budget exits at the
current rate even with profit 0.06 above the threshold; a young position
with profit 0.01 yields no signal. -/
theorem custom_sell_order_witness :
    custom_sell defaultParams trade1 125 100 (6 / 100) = some 100 ∧
    custom_sell defaultParams trade1 60 100 (1 / 100) = none :=
  ⟨(custom_sell_order defaultParams trade1 125 100 (6 / 100)).1
     (by simp [check_time_based_exit, trade1, defaultParams]; norm_num),
   (custom_sell_order defaultParams trade1 60 100 (1 / 100)).2.2
     (by simp [check_time_based_exit, trade1, defaultParams]; norm_num)
     (by norm_num)⟩

/-- C8: for a nonnegative open price, the trailing-stop price is
antitone in the trailing fraction: a larger fraction never yields a
strictly higher stop price. -/
theorem stoploss_price_antitone (o f1 f2 : ℚ) (ho : 0 ≤ o) (h : f1 ≤ f2) :
    stoploss_price o f2 ≤ stoploss_price o f1 := by
  unfold stoploss_price
  have h1 : (1 : ℚ) - f2 ≤ 1 - f1 := by linarith
  exact mul_le_mul_of_nonneg_left h1 ho

/-- Witness for C8: at open price 100, fractions 0.02 ≤ 0.10. -/
theorem stoploss_price_antitone_witness :
    (0 : ℚ) ≤ 100 ∧ (2 / 100 : ℚ) ≤ 1 / 10 ∧
    stoploss_price 100 (1 / 10) ≤ stoploss_price 100 (2 / 100) :=
  ⟨by norm_num, by norm_num,
   stoploss_price_antitone 100 (2 / 100) (1 / 10) (by norm_num) (by norm_num)⟩

/-- C9: the protection list always contains the 48-candle cooldown guard,
and contains the per-pair stoploss guard (3 losses within 72 candles,
24-candle pause) exactly when `use_stop_protection` is set. -/
theorem protections_characterization (p : Params) :
    Guard.cooldownPeriod 48 ∈ protections p ∧
    (Guard.stoplossGuard 72 3 24 true ∈ protections p ↔
      p.use_stop_protection = true) := by
  cases hb : p.use_stop_protection <;> simp [protections, hb]

/-- The external indicator library (`talib`): abstract series-valued
functions over the dataframe.  `EMA` takes the `timeperiod` argument. -/
structure Indicators where
  RSI : List Row → List ℚ
  EMA : ℕ → List Row → List ℚ
  MACD : List Row → List ℚ × List ℚ × List ℚ
  ATR : ℕ → List Row → List ℚ

/-- Attaches seven row-aligned indicator series to the dataframe as the
`rsi`, `ema_short`, `ema_long`, `macd`, `macdsignal`, `macdhist` and
`atr` columns (the seven column assignments of `populate_indicators`);
rows beyond the end of a series are left unchanged. -/
def attachIndicators :
    List Row → List ℚ → List ℚ → List ℚ → List ℚ → List ℚ → List ℚ →
      List ℚ → List Row
  | r :: rs, a :: as, b :: bs, c :: cs, d :: ds, e :: es, f :: fs, g :: gs =>
      { r with rsi := a, ema_short := b, ema_long := c, macd := d
               macdsignal := e, macdhist := f, atr := g } ::
        attachIndicators rs as bs cs ds es fs gs
  | rs, _, _, _, _, _, _, _ => rs

/-- `populate_indicators`: attaches the indicator columns.  The EMA
columns `ema_short` and `ema_long` are computed with the `buy_ema_short`
and `buy_ema_long` periods; the sell-side period parameters are not
read anywhere in the source. -/
def populate_indicators (ind : Indicators) (p : Params) (df : List Row) :
    List Row :=
  let m := ind.MACD df
  attachIndicators df (ind.RSI df)
    (ind.EMA p.buy_ema_short df) (ind.EMA p.buy_ema_long df)
    m.1 m.2.1 m.2.2 (ind.ATR 14 df)

/-- Modelled from the spec: the exit rule as the spec states it, with
the fast/slow averages of the exit side computed from the sell-side
period parameters (`sell_ema_short`, `sell_ema_long`), which the source
never wires into `populate_indicators` or `populate_exit_trend`.  -/
def exit_signals_per_spec (ind : Indicators) (p : Params) (df : List Row) :
    List Bool :=
  let rsiS := ind.RSI df
  let emaShortS := ind.EMA p.sell_ema_short df
  let emaLongS := ind.EMA p.sell_ema_long df
  List.zipWith
    (fun x r =>
      decide (x.1 > p.sell_rsi) && decide (x.2.1 < x.2.2) &&
      decide (r.volume > 0))
    (rsiS.zip (emaShortS.zip emaLongS)) df

/-- A concrete indicator library: constant series with RSI 80, EMA 90
for period 10, EMA 10 for period 16, and EMA 70 for other periods. -/
def ind0 : Indicators :=
  { RSI := fun df => df.map fun _ => 80
    EMA := fun n df =>
      df.map fun _ => if n = 10 then 90 else if n = 16 then 10 else 70
    MACD := fun df =>
      (df.map fun _ => 0, df.map fun _ => 0, df.map fun _ => 0)
    ATR := fun _ df => df.map fun _ => 0 }

/-- Default parameters with the sell-side fast EMA period retuned to 16
(inside its declared range 5..20). -/
def p0 : Params := { defaultParams with sell_ema_short := 16 }

/-- The sell-side EMA period parameters do not influence the exit
signals at all: the full pipeline is unchanged under any reassignment
of `sell_ema_short` and `sell_ema_long`. -/
theorem exit_pipeline_ignores_sell_periods (ind : Indicators) (p : Params)
    (df : List Row) (s1 s2 : ℕ) :
    populate_exit_trend { p with sell_ema_short := s1, sell_ema_long := s2 }
      (populate_indicators ind
        { p with sell_ema_short := s1, sell_ema_long := s2 } df) =
    populate_exit_trend p (populate_indicators ind p df) := rfl

/-- C2: at the failing input (sell-side fast period retuned to 16 with
`ind0`, over the bar `row1`), the exit rule stated by the spec — using
EMAs of the sell-side periods — fires, but the code sets no exit
signal, because `populate_exit_trend` compares the `ema_short` and
`ema_long` columns that `populate_indicators` computed from the
buy-side periods. -/
theorem exit_sell_periods_divergence :
    exit_signals_per_spec ind0 p0 [row1] = [true] ∧
    (populate_exit_trend p0 (populate_indicators ind0 p0 [row1])).map
      Row.exit_long = [none] := by
  constructor <;> decide
